import Mathlib

/-!
Shallow embedding of `xsdata/models/enums.py`: the namespace registry,
the XSD data-type registry, the schema tag vocabulary and the auxiliary
closed enumerations, together with proofs of the specified properties.
-/

namespace Xsdata

/-- The Python type objects that appear as native kinds in the data-type
registry: `str`, `int`, `bool`, `float`, `object`, `decimal.Decimal` and
`lxml.etree.QName`. -/
inductive PyType where
  | pyStr
  | pyInt
  | pyBool
  | pyFloat
  | pyObject
  | pyDecimal
  | pyQName
deriving DecidableEq, Repr

/-- The `__name__` attribute of each Python type object. -/
def PyType.pyName : PyType → String
  | .pyStr => "str"
  | .pyInt => "int"
  | .pyBool => "bool"
  | .pyFloat => "float"
  | .pyObject => "object"
  | .pyDecimal => "Decimal"
  | .pyQName => "QName"

/-- The `local` payload of a `DataType` member: either a single Python type
object or a tuple of type objects (the tuple is the `Iterable` case of
`DataType.local_name`; a bare type object is not an instance of
`Iterable`). -/
inductive PyLocal where
  | ofType (t : PyType)
  | ofTuple (ts : List PyType)
deriving DecidableEq, Repr

/-- One member of the `DataType` enum: its `code` string and its `local`
native-kind payload. -/
structure DataTypeEntry where
  code : String
  localKind : PyLocal
deriving DecidableEq, Repr

/-- The members of the `DataType` enum in declaration order
(`enums.py`, lines 87-144). -/
def dataTypes : List DataTypeEntry :=
  [ ⟨"qmap", .ofTuple [.pyQName, .pyStr]⟩
  , ⟨"object", .ofType .pyObject⟩
  , ⟨"anyAtomicType", .ofType .pyStr⟩
  , ⟨"anyURI", .ofType .pyStr⟩
  , ⟨"anySimpleType", .ofType .pyObject⟩
  , ⟨"anyType", .ofType .pyObject⟩
  , ⟨"base", .ofType .pyStr⟩
  , ⟨"base64Binary", .ofType .pyStr⟩
  , ⟨"boolean", .ofType .pyBool⟩
  , ⟨"byte", .ofType .pyInt⟩
  , ⟨"date", .ofType .pyStr⟩
  , ⟨"dateTime", .ofType .pyStr⟩
  , ⟨"dateTimeStamp", .ofType .pyStr⟩
  , ⟨"dayTimeDuration", .ofType .pyStr⟩
  , ⟨"yearMonthDuration", .ofType .pyStr⟩
  , ⟨"decimal", .ofType .pyDecimal⟩
  , ⟨"derivationControl", .ofType .pyStr⟩
  , ⟨"double", .ofType .pyDecimal⟩
  , ⟨"duration", .ofType .pyStr⟩
  , ⟨"ENTITIES", .ofType .pyInt⟩
  , ⟨"ENTITY", .ofType .pyInt⟩
  , ⟨"float", .ofType .pyFloat⟩
  , ⟨"gDay", .ofType .pyStr⟩
  , ⟨"gMonth", .ofType .pyStr⟩
  , ⟨"gMonthDay", .ofType .pyStr⟩
  , ⟨"gYear", .ofType .pyStr⟩
  , ⟨"gYearMonth", .ofType .pyStr⟩
  , ⟨"hexBinary", .ofType .pyStr⟩
  , ⟨"ID", .ofType .pyStr⟩
  , ⟨"IDREF", .ofType .pyStr⟩
  , ⟨"IDREFS", .ofType .pyStr⟩
  , ⟨"int", .ofType .pyInt⟩
  , ⟨"integer", .ofType .pyInt⟩
  , ⟨"lang", .ofType .pyStr⟩
  , ⟨"language", .ofType .pyStr⟩
  , ⟨"long", .ofType .pyInt⟩
  , ⟨"Name", .ofType .pyStr⟩
  , ⟨"NCName", .ofType .pyStr⟩
  , ⟨"negativeInteger", .ofType .pyInt⟩
  , ⟨"NMTOKEN", .ofType .pyStr⟩
  , ⟨"NMTOKENS", .ofType .pyStr⟩
  , ⟨"nonNegativeInteger", .ofType .pyInt⟩
  , ⟨"nonPositiveInteger", .ofType .pyInt⟩
  , ⟨"normalizedString", .ofType .pyStr⟩
  , ⟨"NOTATION", .ofType .pyStr⟩
  , ⟨"positiveInteger", .ofType .pyInt⟩
  , ⟨"QName", .ofType .pyQName⟩
  , ⟨"short", .ofType .pyInt⟩
  , ⟨"simpleDerivationSet", .ofType .pyStr⟩
  , ⟨"string", .ofType .pyStr⟩
  , ⟨"time", .ofType .pyStr⟩
  , ⟨"token", .ofType .pyStr⟩
  , ⟨"unsignedByte", .ofType .pyInt⟩
  , ⟨"unsignedInt", .ofType .pyInt⟩
  , ⟨"unsignedLong", .ofType .pyInt⟩
  , ⟨"unsignedShort", .ofType .pyInt⟩ ]

/-- The reverse dictionary `__XSDType__ = \x7bxsd.code: xsd for xsd in DataType\x7d`.
A Python dict comprehension keeps the last binding for a duplicated key, so
lookup scans the reversed declaration list. -/
def xsdTypeMap (code : String) : Option DataTypeEntry :=
  dataTypes.reverse.find? (fun e => e.code = code)

/-- The guard `... if key else None` shared by both `get_enum` class methods:
Python truthiness sends both `None` and the empty string to `None` before
the dictionary is consulted. -/
def truthyGet {α : Type} (table : String → Option α) (key : Option String) :
    Option α :=
  match key with
  | none => none
  | some s => if s = "" then none else table s

/-- `DataType.get_enum` (`enums.py`, lines 161-163). -/
def DataType.get_enum (code : Option String) : Option DataTypeEntry :=
  truthyGet xsdTypeMap code

/-- `DataType.local_name` (`enums.py`, lines 154-159): a tuple payload is an
`Iterable`, so its member names are joined with the separator `", "`; a bare
type object is not, so its own name is returned. -/
def local_name : PyLocal → String
  | .ofTuple ts => String.intercalate ", " (ts.map PyType.pyName)
  | .ofType t => t.pyName

/-- One member of the `Namespace` enum: its symbolic member name and its
value, the namespace URI (`Namespace.uri` returns `self.value`). -/
structure NamespaceEntry where
  name : String
  uri : String
deriving DecidableEq, Repr

/-- The members of the `Namespace` enum in declaration order
(`enums.py`, lines 15-21). -/
def namespaces : List NamespaceEntry :=
  [ ⟨"XS", "http://www.w3.org/2001/XMLSchema"⟩
  , ⟨"XML", "http://www.w3.org/XML/1998/namespace"⟩
  , ⟨"XSI", "http://www.w3.org/2001/XMLSchema-instance"⟩
  , ⟨"XLINK", "http://www.w3.org/1999/xlink"⟩
  , ⟨"XHTML", "http://www.w3.org/1999/xhtml"⟩
  , ⟨"SOAP11", "http://schemas.xmlsoap.org/wsdl/soap/"⟩
  , ⟨"SOAP12", "http://schemas.xmlsoap.org/wsdl/soap12/"⟩ ]

/-- Python `str.lower()` restricted to its ASCII behaviour, which is all the
namespace member names use. -/
def pyLower (s : String) : String :=
  ⟨s.data.map Char.toLower⟩

/-- The `Namespace.prefix` property (`enums.py`, line 29):
`self.name.lower()`. -/
def prefixOf (ns : NamespaceEntry) : String :=
  pyLower ns.name

/-- The reverse dictionary
`__STANDARD_NAMESPACES__ = \x7bns.uri: ns for ns in Namespace\x7d`; a dict
comprehension keeps the last binding for a duplicated key. -/
def standardNamespacesMap (uri : String) : Option NamespaceEntry :=
  namespaces.reverse.find? (fun ns => ns.uri = uri)

/-- `Namespace.get_enum` (`enums.py`, lines 36-38). -/
def Namespace.get_enum (uri : Option String) : Option NamespaceEntry :=
  truthyGet standardNamespacesMap uri

/-- The string constants of the `Tag` class that precede the
`# Restrictions` comment (`enums.py`, lines 180-212). -/
def structuralTags : List String :=
  [ "All", "Annotation", "Any", "AnyAttribute", "Appinfo", "Assertion"
  , "Alternative", "Attribute", "AttributeGroup", "Choice", "ComplexContent"
  , "ComplexType", "Documentation", "Element", "Extension", "Field", "Group"
  , "Import", "Include", "Key", "Keyref", "List", "Notation", "Override"
  , "Redefine", "Restriction", "Schema", "Selector", "Sequence"
  , "SimpleContent", "SimpleType", "Union", "Unique" ]

/-- The string constants of the `Tag` class that follow the
`# Restrictions` comment (`enums.py`, lines 215-226). -/
def restrictionTags : List String :=
  [ "Enumeration", "FractionDigits", "Length", "MaxExclusive", "MaxInclusive"
  , "MaxLength", "MinExclusive", "MinInclusive", "MinLength", "Pattern"
  , "TotalDigits", "WhiteSpace" ]

/-- All string constants of the `Tag` class (`enums.py`, lines 177-226). -/
def allTags : List String :=
  structuralTags ++ restrictionTags

/-- Modelled from the spec: `isRecognized(tag)` of the Schema Tag Registry
(a membership test over the fixed, closed set of recognized tag strings);
the source `Tag` class only declares the constants and this operation lives
in the external schema-tree walker. -/
def isRecognized (tag : String) : Bool :=
  allTags.contains tag

/-- Modelled from the spec: `isRestrictionFacet(tag)` of the Schema Tag
Registry, true exactly for the restriction-facet tag strings (Enumeration,
Pattern, the Length bounds, the Digits, Inclusive and Exclusive tags, and
WhiteSpace); the source `Tag` class only declares the constants, grouped
under its `# Restrictions` comment. -/
def isRestrictionFacet (tag : String) : Bool :=
  restrictionTags.contains tag

/-- An auxiliary closed enumeration, as a list of (member name, wire value)
pairs in declaration order. -/
abbrev AuxEnum : Type :=
  List (String × String)

/-- The members of `FormType` (`enums.py`, lines 71-72). -/
def formType : AuxEnum :=
  [("QUALIFIED", "qualified"), ("UNQUALIFIED", "unqualified")]

/-- The members of `Mode` (`enums.py`, lines 78-80). -/
def mode : AuxEnum :=
  [("NONE", "none"), ("SUFFIX", "suffix"), ("INTERLEAVE", "interleave")]

/-- The members of `UseType` (`enums.py`, lines 232-234). -/
def useType : AuxEnum :=
  [("OPTIONAL", "optional"), ("PROHIBITED", "prohibited"),
   ("REQUIRED", "required")]

/-- The members of `ProcessType` (`enums.py`, lines 240-242). -/
def processType : AuxEnum :=
  [("LAX", "lax"), ("SKIP", "skip"), ("STRICT", "strict")]

/-- The members of `BindingStyle` (`enums.py`, lines 246-247). -/
def bindingStyle : AuxEnum :=
  [("RPC", "rpc"), ("DOCUMENT", "document")]

/-- The members of `UseChoice` (`enums.py`, lines 251-252). -/
def useChoice : AuxEnum :=
  [("LITERAL", "literal"), ("ENCODED", "encoded")]

/-- The six auxiliary enumerations named by the spec. -/
def auxEnums : List AuxEnum :=
  [formType, mode, useType, processType, bindingStyle, useChoice]

/-- `toWireValue(variant)`: the string value attached to an enum member
(Python `member.value`). -/
def toWireValue (v : String × String) : String :=
  v.2

/-- Modelled from the spec: `fromWireValue(s)` for an auxiliary enumeration,
the precomputed reverse table from wire value to member; the enum classes in
the source only declare the (name, value) members, and Python's standard
value-to-member map realises this lookup. Unknown wire values yield none. -/
def fromWireValue (e : AuxEnum) (s : String) : Option (String × String) :=
  e.find? (fun v => v.2 = s)

/-- The integer-family XSD type codes named by the spec: the bounded and
unbounded integer types and their unsigned variants. -/
def integerFamilyCodes : List String :=
  [ "byte", "int", "integer", "long", "negativeInteger"
  , "nonNegativeInteger", "nonPositiveInteger", "positiveInteger", "short"
  , "unsignedByte", "unsignedInt", "unsignedLong", "unsignedShort" ]

/-- Modelled from the spec: the W3C XSD 1.0/1.1 Part 2 built-in datatypes
list referenced by the coverage policy — the nineteen primitives, the
twenty-five derived types, the four XSD 1.1 additions and the two special
types `anySimpleType` and `anyType`. The list itself is external standard
vocabulary, not code of this repository. -/
def w3cXsdTypeNames : List String :=
  [ "string", "boolean", "decimal", "float", "double", "duration"
  , "dateTime", "time", "date", "gYearMonth", "gYear", "gMonthDay", "gDay"
  , "gMonth", "hexBinary", "base64Binary", "anyURI", "QName", "NOTATION"
  , "normalizedString", "token", "language", "NMTOKEN", "NMTOKENS", "Name"
  , "NCName", "ID", "IDREF", "IDREFS", "ENTITY", "ENTITIES", "integer"
  , "nonPositiveInteger", "negativeInteger", "long", "int", "short", "byte"
  , "nonNegativeInteger", "unsignedLong", "unsignedInt", "unsignedShort"
  , "unsignedByte", "positiveInteger", "anyAtomicType", "yearMonthDuration"
  , "dayTimeDuration", "dateTimeStamp", "anySimpleType", "anyType" ]

/-- The registry codes that are neither W3C XSD Part 2 built-in type names
nor the two synthetic codes: schema-for-schemas internals and xml helpers. -/
def nonPart2ExtraCodes : List String :=
  ["base", "lang", "derivationControl", "simpleDerivationSet"]

/-- C1, counterexample: the claim says the entries for `ID` and `IDREF` map
to an integer reference kind, but in the registry both carry the plain
string kind `str`, which is a different payload than `int`. -/
theorem claim_C1_counterexample :
    DataType.get_enum (some "ID") =
      some ⟨"ID", PyLocal.ofType PyType.pyStr⟩ ∧
    DataType.get_enum (some "IDREF") =
      some ⟨"IDREF", PyLocal.ofType PyType.pyStr⟩ ∧
    PyLocal.ofType PyType.pyStr ≠ PyLocal.ofType PyType.pyInt := by
  refine ⟨by decide, by decide, by decide⟩

/-- C1, amended: every integer-family XSD type code maps to the native
arbitrary-size integer kind `int`, and so do `ENTITY` and `ENTITIES`, but
the entries for `ID` and `IDREF` map to the plain string kind `str`. -/
theorem claim_C1 :
    (∀ c ∈ integerFamilyCodes,
      (DataType.get_enum (some c)).map DataTypeEntry.localKind =
        some (PyLocal.ofType PyType.pyInt)) ∧
    (DataType.get_enum (some "ENTITY")).map DataTypeEntry.localKind =
      some (PyLocal.ofType PyType.pyInt) ∧
    (DataType.get_enum (some "ENTITIES")).map DataTypeEntry.localKind =
      some (PyLocal.ofType PyType.pyInt) ∧
    (DataType.get_enum (some "ID")).map DataTypeEntry.localKind =
      some (PyLocal.ofType PyType.pyStr) ∧
    (DataType.get_enum (some "IDREF")).map DataTypeEntry.localKind =
      some (PyLocal.ofType PyType.pyStr) := by
  refine ⟨by decide, by decide, by decide, by decide, by decide⟩

/-- C1, witness: the amended theorem applied at the concrete code `int`. -/
theorem claim_C1_witness :
    (DataType.get_enum (some "int")).map DataTypeEntry.localKind =
      some (PyLocal.ofType PyType.pyInt) :=
  claim_C1.1 "int" (by decide)

/-- C2: the reverse lookup round-trips on every registry entry (codes are
unique among entries), and `get_enum` returns none for an absent code and
for the unrecognized string "not-a-type". -/
theorem claim_C2 :
    (∀ e ∈ dataTypes, DataType.get_enum (some e.code) = some e) ∧
    (dataTypes.map DataTypeEntry.code).Nodup ∧
    DataType.get_enum none = none ∧
    DataType.get_enum (some "not-a-type") = none := by
  refine ⟨by decide, by decide, rfl, by decide⟩

/-- C2, witness: the round-trip at the concrete entry for `boolean`. -/
theorem claim_C2_witness :
    DataType.get_enum (some "boolean") =
      some ⟨"boolean", PyLocal.ofType PyType.pyBool⟩ :=
  claim_C2.1 ⟨"boolean", PyLocal.ofType PyType.pyBool⟩ (by decide)

/-- C3, counterexample: the registry code `base` is neither a W3C XSD
Part 2 built-in type name nor one of the two synthetic codes `qmap` and
`object`, so the registry does not consist of exactly the Part 2 names plus
those two codes. -/
theorem claim_C3_counterexample :
    DataType.get_enum (some "base") =
      some ⟨"base", PyLocal.ofType PyType.pyStr⟩ ∧
    "base" ∉ w3cXsdTypeNames ∧
    "base" ≠ "qmap" ∧ "base" ≠ "object" := by
  refine ⟨by decide, by decide, by decide, by decide⟩

/-- C3, amended: the registry contains exactly one entry for every W3C XSD
1.0/1.1 Part 2 built-in type name and, besides the two synthetic codes
`qmap` and `object`, four further codes outside that list (`base`, `lang`,
`derivationControl`, `simpleDerivationSet`); `decimal` maps to the
arbitrary-precision decimal kind, `boolean` to the boolean kind and
`unsignedLong` to the arbitrary-precision integer kind. -/
theorem claim_C3 :
    (∀ n ∈ w3cXsdTypeNames,
      (dataTypes.filter (fun e => e.code = n)).length = 1) ∧
    (∀ e ∈ dataTypes,
      e.code ∈ w3cXsdTypeNames ∨ e.code = "qmap" ∨ e.code = "object" ∨
        e.code ∈ nonPart2ExtraCodes) ∧
    (DataType.get_enum (some "decimal")).map DataTypeEntry.localKind =
      some (PyLocal.ofType PyType.pyDecimal) ∧
    (DataType.get_enum (some "boolean")).map DataTypeEntry.localKind =
      some (PyLocal.ofType PyType.pyBool) ∧
    (DataType.get_enum (some "unsignedLong")).map DataTypeEntry.localKind =
      some (PyLocal.ofType PyType.pyInt) := by
  refine ⟨by decide, by decide, by decide, by decide, by decide⟩

/-- C3, witness: exactly one registry entry carries the Part 2 name
`dateTime`. -/
theorem claim_C3_witness :
    (dataTypes.filter (fun e => e.code = "dateTime")).length = 1 :=
  claim_C3.1 "dateTime" (by decide)

/-- C4: for every auxiliary enumeration (FormType, Mode, UseType,
ProcessType, BindingStyle, UseChoice), converting any variant to its wire
value and back yields the variant, and an unknown wire value such as
"bogus" yields none rather than an error or a default. -/
theorem claim_C4 :
    ∀ e ∈ auxEnums,
      (∀ v ∈ e, fromWireValue e (toWireValue v) = some v) ∧
      fromWireValue e "bogus" = none := by
  decide

/-- C4, witness: the round-trip on the `QUALIFIED` variant of `FormType`,
and the miss on "bogus" for `FormType`. -/
theorem claim_C4_witness :
    fromWireValue formType (toWireValue ("QUALIFIED", "qualified")) =
      some ("QUALIFIED", "qualified") ∧
    fromWireValue formType "bogus" = none :=
  ⟨(claim_C4 formType (by decide)).1 ("QUALIFIED", "qualified") (by decide),
   (claim_C4 formType (by decide)).2⟩

/-- C5: the native-kind label of a single-kind entry is that kind's name;
for a tuple payload it is the kind names joined by the separator `", "` in
declaration order; in particular the union entry `qmap` carries the kinds
`QName` then `str` and its label is `"QName, str"`. -/
theorem claim_C5 :
    (∀ t : PyType, local_name (PyLocal.ofType t) = t.pyName) ∧
    (∀ ts : List PyType,
      local_name (PyLocal.ofTuple ts) =
        String.intercalate ", " (ts.map PyType.pyName)) ∧
    DataType.get_enum (some "qmap") =
      some ⟨"qmap", PyLocal.ofTuple [PyType.pyQName, PyType.pyStr]⟩ ∧
    local_name (PyLocal.ofTuple [PyType.pyQName, PyType.pyStr]) =
      "QName, str" := by
  refine ⟨fun t => rfl, fun ts => rfl, by decide, by decide⟩

/-- C6: the entries for `decimal` and `double` both map to the
arbitrary-precision decimal kind, while the entry for `float` maps to the
fixed-width floating kind, a distinct kind. -/
theorem claim_C6 :
    (DataType.get_enum (some "decimal")).map DataTypeEntry.localKind =
      some (PyLocal.ofType PyType.pyDecimal) ∧
    (DataType.get_enum (some "double")).map DataTypeEntry.localKind =
      some (PyLocal.ofType PyType.pyDecimal) ∧
    (DataType.get_enum (some "float")).map DataTypeEntry.localKind =
      some (PyLocal.ofType PyType.pyFloat) ∧
    PyType.pyDecimal ≠ PyType.pyFloat := by
  refine ⟨by decide, by decide, by decide, by decide⟩

/-- C7: the namespace reverse lookup round-trips on every registered
identity, and `get_enum` returns none for an absent URI and for a URI not
registered in the table. -/
theorem claim_C7 :
    (∀ ns ∈ namespaces, Namespace.get_enum (some ns.uri) = some ns) ∧
    Namespace.get_enum none = none ∧
    Namespace.get_enum (some "unregistered:uri") = none := by
  refine ⟨by decide, rfl, by decide⟩

/-- C7, witness: the round-trip at the XML Schema namespace identity. -/
theorem claim_C7_witness :
    Namespace.get_enum (some "http://www.w3.org/2001/XMLSchema") =
      some ⟨"XS", "http://www.w3.org/2001/XMLSchema"⟩ :=
  claim_C7.1 ⟨"XS", "http://www.w3.org/2001/XMLSchema"⟩ (by decide)

/-- C8: the restriction-facet classification holds exactly on the
restriction-facet tag strings — filtering the recognized tags by
`isRestrictionFacet` yields precisely the facet list, every facet tag is
recognized, no structural tag is a facet, `"Enumeration"` is a facet and
`"Element"` is not. -/
theorem claim_C8 :
    allTags.filter (fun t => isRestrictionFacet t) = restrictionTags ∧
    (∀ t ∈ restrictionTags,
      isRecognized t = true ∧ isRestrictionFacet t = true) ∧
    (∀ t ∈ structuralTags, isRestrictionFacet t = false) ∧
    isRestrictionFacet "Enumeration" = true ∧
    isRestrictionFacet "Element" = false := by
  refine ⟨by decide, by decide, by decide, by decide, by decide⟩

/-- C8, witness: the classification at the concrete tags `"Pattern"` and
`"Sequence"`. -/
theorem claim_C8_witness :
    (isRecognized "Pattern" = true ∧ isRestrictionFacet "Pattern" = true) ∧
    isRestrictionFacet "Sequence" = false :=
  ⟨claim_C8.2.1 "Pattern" (by decide), claim_C8.2.2.1 "Sequence" (by decide)⟩

/-- C9: every registered namespace identity's derived prefix is its
symbolic name lower-cased, the seven prefixes are the expected lower-case
strings, and no two identities share a prefix. -/
theorem claim_C9 :
    (∀ ns ∈ namespaces, prefixOf ns = pyLower ns.name) ∧
    namespaces.map prefixOf =
      ["xs", "xml", "xsi", "xlink", "xhtml", "soap11", "soap12"] ∧
    (namespaces.map prefixOf).Nodup := by
  refine ⟨fun ns _ => rfl, by decide, by decide⟩

/-- C9, witness: the prefix derivation at the `SOAP11` identity. -/
theorem claim_C9_witness :
    prefixOf ⟨"SOAP11", "http://schemas.xmlsoap.org/wsdl/soap/"⟩ =
      pyLower "SOAP11" :=
  claim_C9.1 ⟨"SOAP11", "http://schemas.xmlsoap.org/wsdl/soap/"⟩ (by decide)

/-- C10: the truthiness guard sends the empty string to none before any
table is consulted — for every table, the guarded lookup of `""` is none,
so even a hypothetical entry keyed by `""` would be unreachable — and in
particular both `Namespace.get_enum` and `DataType.get_enum` return none
on the empty string. -/
theorem claim_C10 :
    (∀ (t : String → Option DataTypeEntry), truthyGet t (some "") = none) ∧
    (∀ (t : String → Option NamespaceEntry), truthyGet t (some "") = none) ∧
    Namespace.get_enum (some "") = none ∧
    DataType.get_enum (some "") = none := by
  refine ⟨fun t => rfl, fun t => rfl, rfl, rfl⟩

end Xsdata
